import Mathlib

/-!
Verification of the KlineMonitor backend core against its specification.

The definitions below are a shallow embedding of the Python source under
`backend/app/`: candle (kline) records become a Lean structure over exact
rationals, the detection checks of `services/monitor_service.py` become pure
functions computing the detection decision (the value with which the alert
gate would be invoked), the dedup/alert gate of `services/alert_service.py`
becomes explicit state passing over a database state, the fixed-window rate
limiter of `services/binance_client.py` becomes a step function over a
request trace, and the progressive-initialization tick of
`jobs/monitoring_jobs.py` becomes a function on the symbol table.
-/

namespace KlineMonitor

set_option maxRecDepth 8000

/-- One OHLCV candle, mirroring the fields of `models/kline.py::PriceKline`
that the monitored checks read.  Times are minutes since an arbitrary epoch
(the Python code stores `datetime` values at minute resolution); prices and
volumes are exact rationals standing for the Python floats. -/
structure Kline where
  open_time : ℤ
  close_time : ℤ
  openPrice : ℚ
  closePrice : ℚ
  volume : ℚ
  deriving DecidableEq, Inhabited

/-- `ks[-n:]` in Python: the suffix of the `n` most recent entries
(lists are ordered oldest first, as returned by `_get_klines_from_db`). -/
def lastN (n : ℕ) (ks : List Kline) : List Kline :=
  ks.drop (ks.length - n)

/-- Total volume of a list of candles. -/
def sumVol (ks : List Kline) : ℚ :=
  (ks.map (fun k => k.volume)).sum

/-- Payload built by the volume check for the alert gate
(the `data` dict of `check_volume_with_klines`). -/
structure VolumeData where
  volume_15m : ℚ
  volume_8h : ℚ
  volume_share : ℚ
  volume_threshold : ℚ
  deriving DecidableEq

/-- `MonitorService.check_volume_with_klines` (monitor_service.py):
the detection decision of requirement one.  Returns `some data` exactly when
the code reaches the `alert.reminder(symbol, 1, data)` call, `none` when it
returns without firing.  The still-forming last candle is dropped
(`klines_1m[:-1]`); `volume_15m` is the sum of the most recent 15 closed
candles when at least 15 exist, else `0`; `volume_8h` the sum of the most
recent 480 closed candles. -/
def check_volume_with_klines (klines_1m : List Kline) (percent : ℚ) : Option VolumeData :=
  if klines_1m.length ≤ 1 then none
  else
    let closed := klines_1m.dropLast
    let volume_15m : ℚ := if 15 ≤ closed.length then sumVol (lastN 15 closed) else 0
    let volume_8h : ℚ := if 1 ≤ closed.length then sumVol (lastN 480 closed) else 0
    let threshold := volume_8h * percent / 100
    if threshold ≤ volume_15m then
      some ⟨volume_15m, volume_8h,
            (if 0 < volume_8h then volume_15m / volume_8h * 100 else 0), percent⟩
    else none

/-- Payload built by the rise check for the alert gate
(the `data` dict of `check_rise_with_klines`). -/
structure RiseData where
  rise_percent : ℚ
  rise_threshold : ℚ
  rise_start_price : ℚ
  rise_end_price : ℚ
  deriving DecidableEq

/-- `MonitorService.check_rise_with_klines` (monitor_service.py):
the detection decision of requirement two.  Drops the forming candle, takes
the last 15 closed candles, and fires when
`(last.close - first.open) / first.open * 100 ≥ threshold`;
short histories and a zero first open never fire. -/
def check_rise_with_klines (klines_1m : List Kline) (threshold : ℚ) : Option RiseData :=
  if klines_1m.length ≤ 2 then none
  else
    let closed := klines_1m.dropLast
    if closed.length < 15 then none
    else
      let recent_15 := lastN 15 closed
      let first_open := recent_15.headI.openPrice
      let last_close := (recent_15.getLastD default).closePrice
      if first_open = 0 then none
      else
        let price_change := (last_close - first_open) / first_open * 100
        if threshold ≤ price_change then
          some ⟨price_change, threshold, first_open, last_close⟩
        else none

/-- `BinanceClient.INTERVAL_TO_MINUTES.get(timeframe, 15)`
(binance_client.py): minutes per candle of a timeframe, defaulting to 15. -/
def INTERVAL_TO_MINUTES (interval : String) : ℤ :=
  if interval = "1m" then 1
  else if interval = "3m" then 3
  else if interval = "15m" then 15
  else if interval = "30m" then 30
  else if interval = "1h" then 60
  else if interval = "2h" then 120
  else if interval = "4h" then 240
  else if interval = "6h" then 360
  else if interval = "8h" then 480
  else if interval = "12h" then 720
  else if interval = "1d" then 1440
  else if interval = "3d" then 4320
  else if interval = "1w" then 10080
  else if interval = "1M" then 43200
  else 15

/-- `abs(price_d - price_e) / min(price_d, price_e) * 100` of
`check_open_price_match_with_db`.  Total over ℚ; the code path where the
divisor is zero (a Python `ZeroDivisionError`) is modelled separately in the
scan below. -/
def errorPercent (price_d price_e : ℚ) : ℚ :=
  |price_d - price_e| / min price_d price_e * 100

/-- The inner `middle_klines` database query of
`check_open_price_match_with_db`: among all stored candles of the
(symbol, timeframe) pair — the `table` argument — count the bullish ones
(`close > open`) whose open time lies strictly between `time_e` and `time_d`
and whose open is below `avg_price`. -/
def middleCount (table : List Kline) (time_d time_e : ℤ) (avg_price : ℚ) : ℕ :=
  (table.filter (fun k =>
    decide (k.openPrice < k.closePrice) &&
    decide (time_e < k.open_time) && decide (k.open_time < time_d) &&
    decide (k.openPrice < avg_price))).length

/-- Payload built by the open-price match for the alert gate
(the `data` dict of `check_open_price_match_with_db`).  `middle_count` is
the *reported* count: elapsed minutes between D and E divided by the
timeframe length, truncated toward zero as Python `int()` does — not the raw
middle-candle count. -/
structure OpenPriceData where
  price_d : ℚ
  price_e : ℚ
  time_d : ℤ
  time_e : ℤ
  price_error_value : ℚ
  middle_count : ℤ
  deriving DecidableEq

/-- The alert payload assembled when the pair (D, E) fires. -/
def mkOpenPriceData (timeframe : String) (d e : Kline) : OpenPriceData :=
  ⟨d.openPrice, e.openPrice, d.open_time, e.open_time,
   errorPercent d.openPrice e.openPrice,
   Int.tdiv (d.open_time - e.open_time) (INTERVAL_TO_MINUTES timeframe)⟩

/-- The `for i, historical in enumerate(bullish_klines[1:], 1)` loop of
`check_open_price_match_with_db`, scanning older bullish candles `E` at
1-based index `i` from the newest candle `d`.  Indices below
`middle_kline_cnt` are skipped; a zero minimum open raises
`ZeroDivisionError` (modelled as `Except.error`); the first candidate whose
price error is within `price_error` and whose middle-candle count is within
`fake_kline_cnt` fires. -/
def scanOpenPrice (timeframe : String) (table : List Kline) (price_error : ℚ)
    (middle_kline_cnt fake_kline_cnt : ℤ) (d : Kline) :
    ℕ → List Kline → Except Unit (Option OpenPriceData)
  | _, [] => .ok none
  | i, e :: rest =>
    if (i : ℤ) < middle_kline_cnt then
      scanOpenPrice timeframe table price_error middle_kline_cnt fake_kline_cnt d (i + 1) rest
    else if min d.openPrice e.openPrice = 0 then
      .error ()
    else if errorPercent d.openPrice e.openPrice ≤ price_error then
      let avg_price := (d.openPrice + e.openPrice) / 2
      if (middleCount table d.open_time e.open_time avg_price : ℤ) ≤ fake_kline_cnt then
        .ok (some (mkOpenPriceData timeframe d e))
      else
        scanOpenPrice timeframe table price_error middle_kline_cnt fake_kline_cnt d (i + 1) rest
    else
      scanOpenPrice timeframe table price_error middle_kline_cnt fake_kline_cnt d (i + 1) rest

/-- `MonitorService.check_open_price_match_with_db` (monitor_service.py):
the detection decision of requirement three for one timeframe.
`bullish` is the result of the windowed query for bullish candles ordered
newest first; `table` holds all stored candles of the (symbol, timeframe)
pair, against which the middle-candle query runs.  Fewer than two bullish
candles, an exhausted scan, and the `ZeroDivisionError` path (swallowed by
the surrounding `except`) all yield no trigger. -/
def check_open_price_match_with_db (timeframe : String) (bullish table : List Kline)
    (price_error : ℚ) (middle_kline_cnt fake_kline_cnt : ℤ) : Option OpenPriceData :=
  match bullish with
  | [] => none
  | [_] => none
  | d :: rest =>
    match scanOpenPrice timeframe table price_error middle_kline_cnt fake_kline_cnt d 1 rest with
    | .error _ => none
    | .ok r => r

/-- The Boolean qualification test of one scan candidate at 1-based index
`p.1`: far enough from D, price error within threshold, middle-candle count
within threshold. -/
def qualifiesOpenPrice (table : List Kline) (price_error : ℚ)
    (middle_kline_cnt fake_kline_cnt : ℤ) (d : Kline) (p : ℕ × Kline) : Bool :=
  decide (middle_kline_cnt ≤ (p.1 : ℤ)) &&
  decide (errorPercent d.openPrice p.2.openPrice ≤ price_error) &&
  decide ((middleCount table d.open_time p.2.open_time
            ((d.openPrice + p.2.openPrice) / 2) : ℤ) ≤ fake_kline_cnt)

/-- Modelled from the spec wording of the open-price pattern match (§4.4 of
the specification), for comparison with the translated source: order older
bullish candles by ascending 1-based index from the newest candle D, keep
those at index at least `middle_kline_cnt` whose open-price error is within
`price_error` and whose count of bullish middle candles below the average
price is within `fake_kline_cnt`, and fire on the first such candidate,
reporting the elapsed timeframe periods as the middle count. -/
def openPriceMatchSpec (timeframe : String) (bullish table : List Kline)
    (price_error : ℚ) (middle_kline_cnt fake_kline_cnt : ℤ) : Option OpenPriceData :=
  match bullish with
  | [] => none
  | d :: rest =>
    ((rest.enumFrom 1).find?
        (qualifiesOpenPrice table price_error middle_kline_cnt fake_kline_cnt d)).map
      (fun p => mkOpenPriceData timeframe d p.2)

/-- A persisted alert row (`models/alert.py::Alert`); the payload dict is
not inspected by any claim and is omitted. -/
structure Alert where
  symbol : String
  alert_type : ℤ
  created_at : ℤ
  deriving DecidableEq

/-- A dedup row (`models/alert.py::AlertDedup`). -/
structure AlertDedup where
  symbol : String
  alert_type : ℤ
  dedup_key : String
  last_alert_time : ℤ
  deriving DecidableEq

/-- The persistent state touched by `AlertService`: the alert table and the
dedup table, in insertion order. -/
structure DBState where
  alerts : List Alert
  dedups : List AlertDedup
  deriving DecidableEq

/-- The configuration values `AlertService` resolves through
`config_service` at call time: whether type-3 dedup is enabled
(`3_dedup_enabled` compared against `"true"`), and the reminder intervals in
minutes for types 1 and 2 (`1_reminder_interval`, `2_reminder_interval`,
truncated to int by the code). -/
structure AlertConfig where
  dedup3_enabled : Bool
  reminder_interval_1 : ℤ
  reminder_interval_2 : ℤ
  deriving DecidableEq

/-- `AlertService._check_dedup_type3`: with dedup enabled, suppress exactly
when a permanent record for (symbol, type 3, dedup_key) already exists. -/
def check_dedup_type3 (cfg : AlertConfig) (st : DBState) (symbol : String)
    (dedup_key : String) : Bool :=
  if cfg.dedup3_enabled then
    st.dedups.any (fun d =>
      d.symbol = symbol && d.alert_type = 3 && d.dedup_key = dedup_key)
  else
    false

/-- Greatest element of a list of times, `none` on the empty list.  Models
the `order_by(last_alert_time.desc()).first()` lookup. -/
def maxTime? (ts : List ℤ) : Option ℤ :=
  ts.foldr (fun t acc => match acc with
    | none => some t
    | some u => some (max t u)) none

/-- Last-fired time for (symbol, alert_type): the greatest
`last_alert_time` among matching dedup rows. -/
def lastFired? (dedups : List AlertDedup) (symbol : String) (alert_type : ℤ) : Option ℤ :=
  maxTime? ((dedups.filter (fun d =>
    d.symbol = symbol && d.alert_type = alert_type)).map (fun d => d.last_alert_time))

/-- `AlertService._check_dedup_time_based`: for types 1 and 2, look up the
configured interval (a non-positive interval disables dedup), then suppress
exactly when the most recent matching dedup row's `last_alert_time` is at or
after `now - interval` — that is, when `now - lastFired ≤ interval`. -/
def check_dedup_time_based (cfg : AlertConfig) (st : DBState) (now : ℤ)
    (symbol : String) (alert_type : ℤ) : Bool :=
  if alert_type = 1 ∨ alert_type = 2 then
    let interval_minutes :=
      if alert_type = 1 then cfg.reminder_interval_1 else cfg.reminder_interval_2
    if interval_minutes ≤ 0 then false
    else
      match lastFired? st.dedups symbol alert_type with
      | none => false
      | some t => decide (now - interval_minutes ≤ t)
  else
    false

/-- Set the `last_alert_time` of the first dedup row matching
(symbol, alert_type) to `now` (the `.first()` row updated by
`_update_dedup_record`). -/
def updateFirstDedup (symbol : String) (alert_type : ℤ) (now : ℤ) :
    List AlertDedup → List AlertDedup
  | [] => []
  | d :: ds =>
    if d.symbol = symbol && d.alert_type = alert_type then
      { d with last_alert_time := now } :: ds
    else
      d :: updateFirstDedup symbol alert_type now ds

/-- `AlertService._update_dedup_record`: type 3 with a key appends a fresh
permanent row; types 1 and 2 update the existing row's time to `now` or
append a fresh row keyed `"type<N>_interval"`. -/
def update_dedup_record (st : DBState) (now : ℤ) (symbol : String)
    (alert_type : ℤ) (dedup_key : Option String) : DBState :=
  if alert_type = 3 ∧ dedup_key.isSome then
    { st with dedups := st.dedups ++ [⟨symbol, 3, dedup_key.getD "", now⟩] }
  else if alert_type = 1 ∨ alert_type = 2 then
    if st.dedups.any (fun d => d.symbol = symbol && d.alert_type = alert_type) then
      { st with dedups := updateFirstDedup symbol alert_type now st.dedups }
    else
      { st with dedups := st.dedups ++
          [⟨symbol, alert_type, "type" ++ toString alert_type ++ "_interval", now⟩] }
  else
    st

/-- The module-level names in scope in `services/alert_service.py`: its
imports plus its own definitions.  `now_beijing` is *not* among them —
the module never imports it from `core/timezone.py`. -/
def alertServiceModuleGlobals : List String :=
  ["datetime", "timedelta", "Optional", "Dict", "Any", "httpx",
   "settings", "SessionLocal", "Alert", "AlertDedup",
   "AlertService", "alert_service"]

/-- The exception message raised by `_format_wechat_message`. -/
def nameErrorMessage : String := "NameError: name now_beijing is not defined"

/-- `AlertService._format_wechat_message`: builds the notification text.
Its final template line evaluates `now_beijing()`, so the Python name lookup
succeeds only if `now_beijing` is a module global; otherwise a `NameError`
is raised.  The message text itself is irrelevant to the claims. -/
def format_wechat_message (symbol : String) (alert_type : ℤ) : Except String String :=
  if alertServiceModuleGlobals.contains "now_beijing" then
    .ok ("kline monitor reminder " ++ symbol ++ " type " ++ toString alert_type)
  else
    .error nameErrorMessage

/-- The combined dedup gate at the top of `AlertService.reminder`: types 1
and 2 run the time-based check, type 3 with a key runs the permanent-key
check; the corresponding branch returning `None` means suppressed. -/
def reminder_suppressed (cfg : AlertConfig) (st : DBState) (now : ℤ)
    (symbol : String) (alert_type : ℤ) (dedup_key : Option String) : Bool :=
  (decide (alert_type = 1 ∨ alert_type = 2) &&
     check_dedup_time_based cfg st now symbol alert_type) ||
  (decide (alert_type = 3) && dedup_key.isSome &&
     check_dedup_type3 cfg st symbol (dedup_key.getD ""))

/-- `AlertService.reminder`: dedup gate, then persist the alert row, then
update the dedup record, then — only with `send_wechat` — format the
notification (which raises `NameError`, after the state changes) and send
it.  Returns the new database state together with either the created alert
(`ok some`), a suppression (`ok none`), or the escaped exception. -/
def reminder (cfg : AlertConfig) (st : DBState) (now : ℤ) (symbol : String)
    (alert_type : ℤ) (send_wechat : Bool) (dedup_key : Option String) :
    DBState × Except String (Option Alert) :=
  if reminder_suppressed cfg st now symbol alert_type dedup_key then
    (st, .ok none)
  else
    let alert : Alert := ⟨symbol, alert_type, now⟩
    let st1 : DBState := { st with alerts := st.alerts ++ [alert] }
    let st2 := update_dedup_record st1 now symbol alert_type dedup_key
    if send_wechat then
      match format_wechat_message symbol alert_type with
      | .error e => (st2, .error e)
      | .ok _ => (st2, .ok (some alert))
    else
      (st2, .ok (some alert))

/-- How the detection checks consume a `reminder` outcome inside their
`try/except`: a returned alert means the check reports triggered; a
suppressed reminder or an escaped exception means it reports not
triggered. -/
def checkReportsTriggered (out : DBState × Except String (Option Alert)) : Bool :=
  match out.2 with
  | .ok r => r.isSome
  | .error _ => false

/-- The methods defined in the body of `MonitorService`
(services/monitor_service.py) — the names Python attribute lookup can
resolve on `monitor_service`.  `run_all_checks_optimized` is not among
them. -/
def monitorServiceMethods : List String :=
  ["__init__", "_get_1m_klines_cached", "_get_global_configs",
   "_get_symbol_configs_batch", "_get_symbol_config",
   "_get_symbol_price_error", "_get_symbol_middle_kline_cnt",
   "_get_symbol_fake_kline_cnt", "check_volume_with_klines", "check_volume",
   "check_rise_with_klines", "check_rise", "check_open_price_match_with_db",
   "check_open_price_match", "run_all_checks"]

/-- Python attribute lookup on the `monitor_service` instance: resolves a
method name, or raises `AttributeError` before any call happens. -/
def lookupMonitorServiceMethod (name : String) : Except String String :=
  if monitorServiceMethods.contains name then
    .ok name
  else
    .error ("AttributeError: MonitorService object has no attribute " ++ name)

/-- `run_single_monitor_optimized` (jobs/monitoring_jobs.py): under the
semaphore it evaluates `monitor_service.run_all_checks_optimized(...)`;
the attribute lookup happens first, and the surrounding `except` turns any
exception into the `(symbol, e)` pair.  The `ok` branch is unreachable
because the method list lacks the name. -/
def run_single_monitor_optimized (st : DBState) (symbol : String) :
    DBState × String × Except String Unit :=
  match lookupMonitorServiceMethod "run_all_checks_optimized" with
  | .error e => (st, symbol, .error e)
  | .ok _ => (st, symbol, .ok ())

/-- `run_monitor_task` (jobs/monitoring_jobs.py), restricted to its
observable effect on the alert state: it fans
`run_single_monitor_optimized` out over the symbols (the gather order is
irrelevant, each task only reads shared data) and collects each `(symbol,
result)` pair. -/
def run_monitor_task (st : DBState) (symbols : List String) :
    DBState × List (String × Except String Unit) :=
  match symbols with
  | [] => (st, [])
  | s :: rest =>
    let step := run_single_monitor_optimized st s
    let rec_rest := run_monitor_task step.1 rest
    (rec_rest.1, step.2 :: rec_rest.2)

/-- State of the fixed-window rate limiter inside `BinanceClient`
(binance_client.py): the current minute marker (`hour*60 + minute`,
initially `-1`), the request count of the window, and the wall-clock time
(in seconds) at which the previous acquisition completed — the earliest
instant the next caller can observe `datetime.now()`, since the check runs
under `_rate_limit_lock`. -/
structure RLState where
  curMinute : ℤ
  count : ℕ
  lastTime : ℕ
  deriving DecidableEq

/-- `now.minute + now.hour * 60` for a wall-clock time in seconds. -/
def minuteKey (t : ℕ) : ℤ :=
  ((t / 60) % 1440 : ℕ)

/-- The soft acquisition threshold of `_check_rate_limit`, 50 below the
1200-per-minute hard API cap. -/
def RATE_SOFT_LIMIT : ℕ := 1150

/-- One pass through `BinanceClient._check_rate_limit` for a caller whose
request reaches the lock at time `r`: the observed time is at earliest the
previous completion; a minute change resets the counter; a counter at the
soft threshold sleeps to the next minute boundary and resets; finally the
counter increments and the slot is granted.  Returns the new state and the
grant time. -/
def check_rate_limit_step (s : RLState) (r : ℕ) : RLState × ℕ :=
  let t := max r s.lastTime
  let k := minuteKey t
  let c := if k = s.curMinute then s.count else 0
  if RATE_SOFT_LIMIT ≤ c then
    let t2 := 60 * (t / 60 + 1)
    (⟨minuteKey t2, 1, t2⟩, t2)
  else
    (⟨k, c + 1, t⟩, t)

/-- Run the rate limiter over a trace of request arrival times, collecting
the grant times. -/
def rate_limiter_run (s : RLState) : List ℕ → List ℕ
  | [] => []
  | r :: rs =>
    let p := check_rate_limit_step s r
    p.2 :: rate_limiter_run p.1 rs

/-- The limiter's initial state as built in `BinanceClient.__init__`. -/
def rlInit : RLState := ⟨-1, 0, 0⟩

/-- Grant times for a request trace starting from the fresh limiter. -/
def rate_limiter_grants (rs : List ℕ) : List ℕ :=
  rate_limiter_run rlInit rs

/-- Number of grants landing in the one-minute wall-clock window `m`
(the window covering seconds `60*m` to `60*m + 59`). -/
def grantsInWindow (m : ℕ) (gs : List ℕ) : ℕ :=
  (gs.filter (fun g => g / 60 = m)).length

/-- A row of the symbol table (`models/symbol.py::Symbol`), restricted to
the flags the sync orchestrator reads. -/
structure SymbolRow where
  symbol : String
  is_active : Bool
  initial_synced : Bool
  deriving DecidableEq, Inhabited

/-- `INITIAL_SYNC_BATCH_SIZE` (jobs/monitoring_jobs.py). -/
def INITIAL_SYNC_BATCH_SIZE : ℕ := 5

/-- The `all_intervals` list used for initial backfill in
`sync_klines_task`, identical to `SUPPORTED_INTERVALS`. -/
def ALL_INTERVALS : List String := ["1m", "15m", "30m", "1h", "4h", "1d", "3d"]

/-- The unsynced half of `get_synced_and_unsynced_symbols`: active symbols
whose `initial_synced` flag is still false, in table order. -/
def unsyncedActive (table : List SymbolRow) : List String :=
  (table.filter (fun r => r.is_active && !r.initial_synced)).map (fun r => r.symbol)

/-- `sync_initial_symbol` (jobs/monitoring_jobs.py): backfill one symbol
across all supported intervals; succeeds only if every interval's
`sync_klines` call succeeds.  `ok` is the success oracle of the underlying
per-(symbol, interval) sync calls. -/
def sync_initial_symbol (ok : String → String → Bool) (symbol : String)
    (intervals : List String) : Bool :=
  intervals.all (fun interval => ok symbol interval)

/-- `mark_symbol_synced` (jobs/monitoring_jobs.py): set the
`initial_synced` flag of the named symbol's rows. -/
def mark_symbol_synced (table : List SymbolRow) (symbol : String) : List SymbolRow :=
  table.map (fun r =>
    if r.symbol = symbol then { r with initial_synced := true } else r)

/-- The progressive-initialization portion of `sync_klines_task`
(jobs/monitoring_jobs.py): slice at most `INITIAL_SYNC_BATCH_SIZE` symbols
off the front of the unsynced list, run the full-interval backfill for
each, and mark exactly the fully-successful ones as initially synced. -/
def sync_klines_task (ok : String → String → Bool) (table : List SymbolRow) :
    List SymbolRow :=
  let toInit := (unsyncedActive table).take INITIAL_SYNC_BATCH_SIZE
  (toInit.filter (fun s => sync_initial_symbol ok s ALL_INTERVALS)).foldl
    mark_symbol_synced table

/-- Number of rows whose `initial_synced` flag is set. -/
def syncedCount (table : List SymbolRow) : ℕ :=
  (table.filter (fun r => r.initial_synced)).length

/-- The fixed error message of the failing attribute lookup. -/
def runAllChecksOptimizedError : String :=
  "AttributeError: MonitorService object has no attribute run_all_checks_optimized"

/-- C1: every orchestrator-driven per-symbol detection task fails: for every
symbol and every alert-database state, `run_single_monitor_optimized`
returns the `(symbol, exception)` error pair, because
`monitor_service.run_all_checks_optimized` is not a method of
`MonitorService`; consequently `run_monitor_task` leaves the alert state
untouched — no check runs and no alert is ever produced. -/
theorem run_monitor_task_always_errors :
    ∀ (st : DBState) (symbols : List String),
      run_monitor_task st symbols =
        (st, symbols.map (fun s => (s, Except.error runAllChecksOptimizedError))) := by
  have hlook : lookupMonitorServiceMethod "run_all_checks_optimized" =
      Except.error runAllChecksOptimizedError := by rfl
  intro st symbols
  induction symbols with
  | nil => rfl
  | cons s rest ih =>
    simp only [run_monitor_task, run_single_monitor_optimized, hlook, ih, List.map_cons]

/-- Candle with the given volume; prices and times are irrelevant to the
volume check. -/
def mkVolK (v : ℚ) : Kline := ⟨0, 0, 0, 0, v⟩

/-- 480 closed candles summing to 9000 whose most recent 15 sum to 1000. -/
def exVolClosedA : List Kline :=
  mkVolK 8000 :: (List.replicate 464 (mkVolK 0) ++
    (List.replicate 14 (mkVolK 0) ++ [mkVolK 1000]))

/-- 480 closed candles summing to 9000 whose most recent 15 sum to 1200. -/
def exVolClosedB : List Kline :=
  mkVolK 7800 :: (List.replicate 464 (mkVolK 0) ++
    (List.replicate 14 (mkVolK 0) ++ [mkVolK 1200]))

/-- 481 candles: the 480 closed ones of `exVolClosedA` plus the
still-forming last candle. -/
def exVolNoTrigger : List Kline := exVolClosedA ++ [mkVolK 0]

/-- 481 candles: the 480 closed ones of `exVolClosedB` plus the
still-forming last candle. -/
def exVolTrigger : List Kline := exVolClosedB ++ [mkVolK 0]

/-- C3: with at least 16 candles (hence at least 15 closed ones), the
volume check fires exactly when the most recent 15 closed candles' volume A
reaches `B * percent / 100` for B the most recent 480 closed candles'
volume; with A = 1000, B = 9000 and percent = 12.5 it does not fire, and
with A = 1200 it does. -/
theorem check_volume_characterization :
    (∀ (ks : List Kline) (p : ℚ), 16 ≤ ks.length →
        ((check_volume_with_klines ks p).isSome = true ↔
          sumVol (lastN 15 ks.dropLast) ≥ sumVol (lastN 480 ks.dropLast) * p / 100)) ∧
    (check_volume_with_klines exVolNoTrigger (25/2)).isSome = false ∧
    (check_volume_with_klines exVolTrigger (25/2)).isSome = true := by
  have general : ∀ (ks : List Kline) (p : ℚ), 16 ≤ ks.length →
      ((check_volume_with_klines ks p).isSome = true ↔
        sumVol (lastN 15 ks.dropLast) ≥ sumVol (lastN 480 ks.dropLast) * p / 100) := by
    intro ks p h16
    have hlen := List.length_dropLast ks
    have h1 : ¬ ks.length ≤ 1 := by omega
    have h15 : 15 ≤ ks.dropLast.length := by omega
    have hpos : 1 ≤ ks.dropLast.length := by omega
    simp only [check_volume_with_klines, if_neg h1, if_pos h15, if_pos hpos, ge_iff_le]
    split
    · next hcond => simpa using hcond
    · next hcond => simpa using hcond
  have hlenA : exVolClosedA.length = 480 := by
    simp [exVolClosedA]
  have hlenB : exVolClosedB.length = 480 := by
    simp [exVolClosedB]
  refine ⟨general, ?_, ?_⟩
  · have h := general exVolNoTrigger (25/2) (by simp [exVolNoTrigger, hlenA])
    rw [Bool.eq_false_iff, Ne, h]
    rw [exVolNoTrigger, List.dropLast_concat]
    rw [show lastN 15 exVolClosedA = List.replicate 14 (mkVolK 0) ++ [mkVolK 1000] by
      simp [lastN, hlenA, exVolClosedA, List.drop_append_eq_append_drop, List.drop_replicate]]
    rw [show lastN 480 exVolClosedA = exVolClosedA from by simp [lastN, hlenA]]
    simp only [exVolClosedA, sumVol, List.map_append, List.map_replicate, List.map_cons,
      List.sum_append, List.sum_cons, List.sum_replicate, mkVolK, smul_zero]
    norm_num
  · have h := general exVolTrigger (25/2) (by simp [exVolTrigger, hlenB])
    rw [h]
    rw [exVolTrigger, List.dropLast_concat]
    rw [show lastN 15 exVolClosedB = List.replicate 14 (mkVolK 0) ++ [mkVolK 1200] by
      simp [lastN, hlenB, exVolClosedB, List.drop_append_eq_append_drop, List.drop_replicate]]
    rw [show lastN 480 exVolClosedB = exVolClosedB from by simp [lastN, hlenB]]
    simp only [exVolClosedB, sumVol, List.map_append, List.map_replicate, List.map_cons,
      List.sum_append, List.sum_cons, List.sum_replicate, mkVolK, smul_zero]
    norm_num

/-- C3 witness: the characterization applied to the concrete no-trigger
example, whose 481 candles satisfy the length hypothesis. -/
theorem check_volume_characterization_witness :
    16 ≤ exVolNoTrigger.length ∧
      ((check_volume_with_klines exVolNoTrigger (25/2)).isSome = true ↔
        sumVol (lastN 15 exVolNoTrigger.dropLast) ≥
          sumVol (lastN 480 exVolNoTrigger.dropLast) * (25/2) / 100) :=
  ⟨by simp [exVolNoTrigger, exVolClosedA],
   check_volume_characterization.1 exVolNoTrigger (25/2)
     (by simp [exVolNoTrigger, exVolClosedA])⟩

/-- C4 counterexample: two candles, of which exactly one (fewer than 15) is
closed, carrying zero volume: the threshold `B * percent / 100` degenerates
to `0`, `A = 0` reaches it, and the check fires — the claim says it must
not. -/
theorem check_volume_short_history_fires :
    ([mkVolK 0, mkVolK 5] : List Kline).dropLast.length < 15 ∧
      (check_volume_with_klines [mkVolK 0, mkVolK 5] (25/2)).isSome = true := by
  constructor
  · simp
  · norm_num [check_volume_with_klines, lastN, sumVol, mkVolK]

/-- C4 (amended): with fewer than 15 closed candles the 15-minute volume A
is forced to 0, so the check fires exactly when at least one closed candle
exists (at least two entries) and `B * percent / 100 ≤ 0` — e.g. when every
closed candle has zero volume; whenever `B * percent` is positive, and in
particular in every market with any trading volume, it does not fire, and
with zero closed candles it never fires. -/
theorem check_volume_short_history_characterization :
    ∀ (ks : List Kline) (p : ℚ), ks.length < 16 →
      ((check_volume_with_klines ks p).isSome = true ↔
        2 ≤ ks.length ∧ sumVol (lastN 480 ks.dropLast) * p / 100 ≤ 0) := by
  intro ks p hlen16
  have hlen := List.length_dropLast ks
  by_cases h1 : ks.length ≤ 1
  · simp only [check_volume_with_klines, if_pos h1]
    simp only [Option.isSome_none, Bool.false_eq_true, false_iff, not_and]
    intro h2
    omega
  · have h15 : ¬ 15 ≤ ks.dropLast.length := by omega
    have hpos : 1 ≤ ks.dropLast.length := by omega
    have h2 : 2 ≤ ks.length := by omega
    simp only [check_volume_with_klines, if_neg h1, if_neg h15, if_pos hpos]
    split
    · next hcond => simpa [h2] using hcond
    · next hcond => simpa [h2] using hcond

/-- C4 witness: the amended characterization applied to the two-candle
zero-volume example. -/
theorem check_volume_short_history_characterization_witness :
    ([mkVolK 0, mkVolK 5] : List Kline).length < 16 ∧
      ((check_volume_with_klines [mkVolK 0, mkVolK 5] (25/2)).isSome = true ↔
        2 ≤ ([mkVolK 0, mkVolK 5] : List Kline).length ∧
          sumVol (lastN 480 ([mkVolK 0, mkVolK 5] : List Kline).dropLast) * (25/2) / 100 ≤ 0) :=
  ⟨by simp,
   check_volume_short_history_characterization [mkVolK 0, mkVolK 5] (25/2) (by simp)⟩

/-- Candle with the given open and close price; volume and times are
irrelevant to the rise check. -/
def mkPriceK (o c : ℚ) : Kline := ⟨0, 0, o, c, 0⟩

/-- 15 closed candles with open 100 and close 112. -/
def exRiseUpClosed : List Kline :=
  [mkPriceK 100 112, mkPriceK 100 112, mkPriceK 100 112, mkPriceK 100 112,
   mkPriceK 100 112, mkPriceK 100 112, mkPriceK 100 112, mkPriceK 100 112,
   mkPriceK 100 112, mkPriceK 100 112, mkPriceK 100 112, mkPriceK 100 112,
   mkPriceK 100 112, mkPriceK 100 112, mkPriceK 100 112]

/-- 15 closed candles with open 100 and close 105. -/
def exRiseFlatClosed : List Kline :=
  [mkPriceK 100 105, mkPriceK 100 105, mkPriceK 100 105, mkPriceK 100 105,
   mkPriceK 100 105, mkPriceK 100 105, mkPriceK 100 105, mkPriceK 100 105,
   mkPriceK 100 105, mkPriceK 100 105, mkPriceK 100 105, mkPriceK 100 105,
   mkPriceK 100 105, mkPriceK 100 105, mkPriceK 100 105]

/-- 16 candles whose last-15-closed window runs from open 100 to close 112
(a 12% rise); the final candle is still forming. -/
def exRiseUp : List Kline := exRiseUpClosed ++ [mkPriceK 0 0]

/-- 16 candles whose last-15-closed window runs from open 100 to close 105
(a 5% rise); the final candle is still forming. -/
def exRiseFlat : List Kline := exRiseFlatClosed ++ [mkPriceK 0 0]

/-- C5: the rise check drops the forming candle; with fewer than 15 closed
candles it never fires; with a zero first open of the 15-candle window it
never fires; otherwise it fires exactly when
`(last.close - first.open) / first.open * 100 ≥ rise_percent`.  At
first.open = 100 and last.close = 112 with threshold 10 it fires (12%); at
last.close = 105 it does not (5%). -/
theorem check_rise_characterization :
    (∀ (ks : List Kline) (t : ℚ), ks.length < 16 →
        (check_rise_with_klines ks t).isSome = false) ∧
    (∀ (ks : List Kline) (t : ℚ), 16 ≤ ks.length →
        (lastN 15 ks.dropLast).headI.openPrice = 0 →
        (check_rise_with_klines ks t).isSome = false) ∧
    (∀ (ks : List Kline) (t : ℚ), 16 ≤ ks.length →
        (lastN 15 ks.dropLast).headI.openPrice ≠ 0 →
        ((check_rise_with_klines ks t).isSome = true ↔
          (((lastN 15 ks.dropLast).getLastD default).closePrice -
              (lastN 15 ks.dropLast).headI.openPrice) /
            (lastN 15 ks.dropLast).headI.openPrice * 100 ≥ t)) ∧
    (check_rise_with_klines exRiseUp 10).isSome = true ∧
    (check_rise_with_klines exRiseFlat 10).isSome = false := by
  refine ⟨?_, ?_, ?_, ?_, ?_⟩
  · intro ks t hshort
    have hlen := List.length_dropLast ks
    by_cases h2 : ks.length ≤ 2
    · simp [check_rise_with_klines, if_pos h2]
    · have h15 : ks.dropLast.length < 15 := by omega
      simp only [check_rise_with_klines, if_neg h2, if_pos h15, Option.isSome_none]
  · intro ks t h16 hzero
    have hlen := List.length_dropLast ks
    have h2 : ¬ ks.length ≤ 2 := by omega
    have h15 : ¬ ks.dropLast.length < 15 := by omega
    simp [check_rise_with_klines, if_neg h2, if_neg h15, hzero]
  · intro ks t h16 hnz
    have hlen := List.length_dropLast ks
    have h2 : ¬ ks.length ≤ 2 := by omega
    have h15 : ¬ ks.dropLast.length < 15 := by omega
    simp only [check_rise_with_klines, if_neg h2, if_neg h15, if_neg hnz, ge_iff_le]
    split
    · next hcond => simpa using hcond
    · next hcond => simpa using hcond
  · norm_num [check_rise_with_klines, exRiseUp, exRiseUpClosed, lastN,
      List.dropLast_concat, mkPriceK, List.getLastD]
  · norm_num [check_rise_with_klines, exRiseFlat, exRiseFlatClosed, lastN,
      List.dropLast_concat, mkPriceK, List.getLastD]

/-- C5 witness: the characterization applied to the 16-candle 12%-rise
example with threshold 10, discharging both hypotheses. -/
theorem check_rise_characterization_witness :
    (16 ≤ exRiseUp.length ∧ (lastN 15 exRiseUp.dropLast).headI.openPrice ≠ 0) ∧
      ((check_rise_with_klines exRiseUp 10).isSome = true ↔
        (((lastN 15 exRiseUp.dropLast).getLastD default).closePrice -
            (lastN 15 exRiseUp.dropLast).headI.openPrice) /
          (lastN 15 exRiseUp.dropLast).headI.openPrice * 100 ≥ 10) :=
  ⟨⟨by simp [exRiseUp, exRiseUpClosed],
    by norm_num [exRiseUp, exRiseUpClosed, lastN, List.dropLast_concat, mkPriceK]⟩,
   check_rise_characterization.2.2.1 exRiseUp 10
     (by simp [exRiseUp, exRiseUpClosed])
     (by norm_num [exRiseUp, exRiseUpClosed, lastN, List.dropLast_concat, mkPriceK])⟩

/-- On candidate lists of positive-open candles the source's scan loop
computes the first qualifying candidate in ascending index order. -/
theorem scanOpenPrice_eq_find (tf : String) (table : List Kline) (pe : ℚ)
    (mkc fkc : ℤ) (d : Kline) (hd : 0 < d.openPrice) :
    ∀ (rest : List Kline) (i : ℕ), (∀ k ∈ rest, 0 < k.openPrice) →
      scanOpenPrice tf table pe mkc fkc d i rest =
        .ok (((rest.enumFrom i).find?
            (qualifiesOpenPrice table pe mkc fkc d)).map
          (fun p => mkOpenPriceData tf d p.2)) := by
  intro rest
  induction rest with
  | nil => intro i _; rfl
  | cons e rs ih =>
    intro i h
    have he : 0 < e.openPrice := h e (List.mem_cons_self e rs)
    have hrs : ∀ k ∈ rs, 0 < k.openPrice := fun k hk => h k (List.mem_cons_of_mem e hk)
    have hmin : ¬ min d.openPrice e.openPrice = 0 := ne_of_gt (lt_min hd he)
    simp only [scanOpenPrice, List.enumFrom]
    by_cases hskip : (i : ℤ) < mkc
    · rw [if_pos hskip, ih (i + 1) hrs, List.find?_cons_of_neg]
      simp only [qualifiesOpenPrice, Bool.and_eq_true, decide_eq_true_eq, not_and]
      intro hab
      exact absurd hab.1 (by omega)
    · rw [if_neg hskip, if_neg hmin]
      by_cases herr : errorPercent d.openPrice e.openPrice ≤ pe
      · rw [if_pos herr]
        by_cases hmc : (middleCount table d.open_time e.open_time
            ((d.openPrice + e.openPrice) / 2) : ℤ) ≤ fkc
        · rw [if_pos hmc, List.find?_cons_of_pos]
          · rfl
          · simp only [qualifiesOpenPrice, Bool.and_eq_true, decide_eq_true_eq]
            exact ⟨⟨by omega, herr⟩, hmc⟩
        · rw [if_neg hmc, ih (i + 1) hrs, List.find?_cons_of_neg]
          simp only [qualifiesOpenPrice, Bool.and_eq_true, decide_eq_true_eq, not_and]
          intro _
          exact hmc
      · rw [if_neg herr, ih (i + 1) hrs, List.find?_cons_of_neg]
        simp only [qualifiesOpenPrice, Bool.and_eq_true, decide_eq_true_eq, not_and]
        intro hab
        exact absurd hab.2 herr

/-- C2: on every newest-first list of bullish candles with positive opens
(the domain on which the claim's error formula is defined), the open-price
check agrees with the specification: scan older candles E in ascending
index order, skip indices below `middle_kline_cnt`, and fire exactly on the
first E whose relative open-price error is within `price_error` and whose
count of bullish middle candles below the average open is within
`fake_kline_cnt`, reporting as middle count the elapsed minutes divided by
the timeframe length; when no E qualifies nothing fires. -/
theorem check_open_price_match_follows_spec :
    ∀ (tf : String) (bullish table : List Kline) (pe : ℚ) (mkc fkc : ℤ),
      (∀ k ∈ bullish, 0 < k.openPrice) →
      check_open_price_match_with_db tf bullish table pe mkc fkc =
        openPriceMatchSpec tf bullish table pe mkc fkc := by
  intro tf bullish table pe mkc fkc hpos
  match bullish with
  | [] => rfl
  | [d] => rfl
  | d :: e :: rest =>
    have hd : 0 < d.openPrice := hpos d (List.mem_cons_self d (e :: rest))
    have hrest : ∀ k ∈ e :: rest, 0 < k.openPrice :=
      fun k hk => hpos k (List.mem_cons_of_mem d hk)
    simp only [check_open_price_match_with_db, openPriceMatchSpec]
    rw [scanOpenPrice_eq_find tf table pe mkc fkc d hd (e :: rest) 1 hrest]

/-- Newest bullish candle D: open 100 at minute 60. -/
def exOpD : Kline := ⟨60, 74, 100, 101, 0⟩

/-- A near bullish candle at index 1, open far from 100. -/
def exOpX : Kline := ⟨45, 59, 200, 201, 0⟩

/-- A near bullish candle at index 2, open far from 100. -/
def exOpY : Kline := ⟨30, 44, 200, 201, 0⟩

/-- Matching bullish candle E at index 3: open 100.8 at minute 0, four
15-minute periods before D. -/
def exOpE : Kline := ⟨0, 14, 504/5, 101, 0⟩

/-- A newest-first bullish list on which the pattern check fires at E. -/
def exOpBullish : List Kline := [exOpD, exOpX, exOpY, exOpE]

/-- C2 witness: the equivalence applied to a concrete four-candle list with
positive opens (timeframe 15m, price error 1%, middle-candle minimum 3,
fake-candle maximum 5). -/
theorem check_open_price_match_follows_spec_witness :
    (∀ k ∈ exOpBullish, 0 < k.openPrice) ∧
      check_open_price_match_with_db "15m" exOpBullish exOpBullish 1 3 5 =
        openPriceMatchSpec "15m" exOpBullish exOpBullish 1 3 5 :=
  ⟨by norm_num [exOpBullish, exOpD, exOpX, exOpY, exOpE],
   check_open_price_match_follows_spec "15m" exOpBullish exOpBullish 1 3 5
     (by norm_num [exOpBullish, exOpD, exOpX, exOpY, exOpE])⟩

/-- Updating a dedup record never touches the alert table. -/
theorem update_dedup_record_alerts (st : DBState) (now : ℤ) (symbol : String)
    (alert_type : ℤ) (dedup_key : Option String) :
    (update_dedup_record st now symbol alert_type dedup_key).alerts = st.alerts := by
  unfold update_dedup_record
  split
  · rfl
  · split
    · split
      · rfl
      · rfl
    · rfl

/-- C6: whenever `AlertService.reminder` passes its dedup gate with
`send_wechat = True` (the default used by all three checks), it persists the
alert row and applies the dedup update, then raises `NameError` from
`_format_wechat_message` (which references the never-imported
`now_beijing`): the state change survives, the call returns the exception
instead of the alert, and the calling check reports not triggered. -/
theorem reminder_raises_after_persisting :
    ∀ (cfg : AlertConfig) (st : DBState) (now : ℤ) (s : String) (ty : ℤ)
      (k : Option String),
      reminder_suppressed cfg st now s ty k = false →
      reminder cfg st now s ty true k =
          (update_dedup_record { st with alerts := st.alerts ++ [⟨s, ty, now⟩] }
             now s ty k,
           Except.error nameErrorMessage) ∧
        (reminder cfg st now s ty true k).1.alerts = st.alerts ++ [⟨s, ty, now⟩] ∧
        checkReportsTriggered (reminder cfg st now s ty true k) = false := by
  intro cfg st now s ty k h
  have hfmt : format_wechat_message s ty = Except.error nameErrorMessage := rfl
  have hrem : reminder cfg st now s ty true k =
      (update_dedup_record { st with alerts := st.alerts ++ [⟨s, ty, now⟩] }
         now s ty k,
       Except.error nameErrorMessage) := by
    simp only [reminder, h, Bool.false_eq_true, if_false, if_true, hfmt]
  refine ⟨hrem, ?_, ?_⟩
  · rw [hrem]
    exact update_dedup_record_alerts _ now s ty k
  · rw [checkReportsTriggered, hrem]

/-- Config with type-3 dedup enabled and both reminder intervals zero
(time-based dedup disabled). -/
def cfgNoTimeDedup : AlertConfig := ⟨true, 0, 0⟩

/-- The empty alert database. -/
def emptyDB : DBState := ⟨[], []⟩

/-- C6 witness: a fresh database and a disabled time-window interval pass
the dedup gate, and the theorem applies. -/
theorem reminder_raises_after_persisting_witness :
    reminder_suppressed cfgNoTimeDedup emptyDB 0 "BTCUSDT" 1 none = false ∧
      (reminder cfgNoTimeDedup emptyDB 0 "BTCUSDT" 1 true none =
          (update_dedup_record { emptyDB with alerts := emptyDB.alerts ++ [⟨"BTCUSDT", 1, 0⟩] }
             0 "BTCUSDT" 1 none,
           Except.error nameErrorMessage) ∧
        (reminder cfgNoTimeDedup emptyDB 0 "BTCUSDT" 1 true none).1.alerts =
          emptyDB.alerts ++ [⟨"BTCUSDT", 1, 0⟩] ∧
        checkReportsTriggered (reminder cfgNoTimeDedup emptyDB 0 "BTCUSDT" 1 true none) = false) :=
  ⟨by decide,
   reminder_raises_after_persisting cfgNoTimeDedup emptyDB 0 "BTCUSDT" 1 none (by decide)⟩

/-- The dedup key built in `check_open_price_match_with_db`:
`timeframe_<time_d>_<time_e>` with both minute-resolution timestamps
rendered textually (the code uses `%Y%m%d%H%M`, injective at minute
resolution). -/
def dedup_key_type3 (timeframe : String) (time_d time_e : ℤ) : String :=
  timeframe ++ "_" ++ toString time_d ++ "_" ++ toString time_e

/-- C7: pattern-match alerts dedup on the permanent key built from
(timeframe, time_d, time_e).  Starting from a state without a record for
(symbol, type 3, key), the first firing persists one alert and inserts the
permanent record; with dedup enabled the second firing of the same key is
suppressed (`ok none`, state unchanged), so exactly one alert is persisted,
while with dedup disabled the second firing persists a second alert. -/
theorem type3_dedup_key_once :
    ∀ (cfg : AlertConfig) (st : DBState) (s tf : String) (td te n1 n2 : ℤ) (sw : Bool),
      st.dedups.any (fun d =>
          d.symbol = s && d.alert_type = 3 && d.dedup_key = dedup_key_type3 tf td te) =
        false →
      (reminder cfg st n1 s 3 sw (some (dedup_key_type3 tf td te))).1 =
          { alerts := st.alerts ++ [⟨s, 3, n1⟩],
            dedups := st.dedups ++ [⟨s, 3, dedup_key_type3 tf td te, n1⟩] } ∧
        (cfg.dedup3_enabled = true →
          reminder cfg
              (reminder cfg st n1 s 3 sw (some (dedup_key_type3 tf td te))).1
              n2 s 3 sw (some (dedup_key_type3 tf td te)) =
            ((reminder cfg st n1 s 3 sw (some (dedup_key_type3 tf td te))).1,
             Except.ok none)) ∧
        (reminder cfg
            (reminder cfg st n1 s 3 sw (some (dedup_key_type3 tf td te))).1
            n2 s 3 sw (some (dedup_key_type3 tf td te))).1.alerts.length =
          st.alerts.length + (if cfg.dedup3_enabled then 1 else 2) := by
  intro cfg st s tf td te n1 n2 sw h
  have h31 : (decide ((3 : ℤ) = 1 ∨ (3 : ℤ) = 2)) = false := by decide
  have h33 : (decide ((3 : ℤ) = 3)) = true := by decide
  have hcheck1 : check_dedup_type3 cfg st s (dedup_key_type3 tf td te) = false := by
    unfold check_dedup_type3
    split
    · exact h
    · rfl
  have hsup1 : reminder_suppressed cfg st n1 s 3 (some (dedup_key_type3 tf td te)) = false := by
    simp [reminder_suppressed, h31, h33, hcheck1, check_dedup_time_based]
  have hupd : update_dedup_record { st with alerts := st.alerts ++ [⟨s, 3, n1⟩] }
      n1 s 3 (some (dedup_key_type3 tf td te)) =
      { alerts := st.alerts ++ [⟨s, 3, n1⟩],
        dedups := st.dedups ++ [⟨s, 3, dedup_key_type3 tf td te, n1⟩] } := by
    simp [update_dedup_record]
  have hr1 : (reminder cfg st n1 s 3 sw (some (dedup_key_type3 tf td te))).1 =
      { alerts := st.alerts ++ [⟨s, 3, n1⟩],
        dedups := st.dedups ++ [⟨s, 3, dedup_key_type3 tf td te, n1⟩] } := by
    cases sw with
    | false => simp only [reminder, hsup1, Bool.false_eq_true, if_false, hupd]
    | true =>
      have hfmt : format_wechat_message s 3 = Except.error nameErrorMessage := rfl
      simp only [reminder, hsup1, Bool.false_eq_true, if_false, if_true, hfmt, hupd]
  -- the inserted record matches the key, so the second permanent-key check hits
  have hradd : (st.dedups ++ [(⟨s, 3, dedup_key_type3 tf td te, n1⟩ : AlertDedup)]).any
      (fun d => d.symbol = s && d.alert_type = 3 && d.dedup_key = dedup_key_type3 tf td te) =
      true := by
    simp [List.any_append]
  by_cases henab : cfg.dedup3_enabled = true
  · have hcheck2 : check_dedup_type3 cfg
        { alerts := st.alerts ++ [⟨s, 3, n1⟩],
          dedups := st.dedups ++ [⟨s, 3, dedup_key_type3 tf td te, n1⟩] }
        s (dedup_key_type3 tf td te) = true := by
      unfold check_dedup_type3
      rw [if_pos henab]
      exact hradd
    have hsup2 : reminder_suppressed cfg
        { alerts := st.alerts ++ [⟨s, 3, n1⟩],
          dedups := st.dedups ++ [⟨s, 3, dedup_key_type3 tf td te, n1⟩] }
        n2 s 3 (some (dedup_key_type3 tf td te)) = true := by
      simp [reminder_suppressed, h33, hcheck2]
    refine ⟨hr1, ?_, ?_⟩
    · intro _
      rw [hr1]
      simp only [reminder, hsup2, if_true]
    · rw [hr1]
      simp only [reminder, hsup2, if_true, henab, if_pos]
      simp
  · have henab' : cfg.dedup3_enabled = false := by
      cases hb : cfg.dedup3_enabled
      · rfl
      · exact absurd hb henab
    have hcheck2 : check_dedup_type3 cfg
        { alerts := st.alerts ++ [⟨s, 3, n1⟩],
          dedups := st.dedups ++ [⟨s, 3, dedup_key_type3 tf td te, n1⟩] }
        s (dedup_key_type3 tf td te) = false := by
      unfold check_dedup_type3
      rw [henab']
      simp
    have hsup2 : reminder_suppressed cfg
        { alerts := st.alerts ++ [⟨s, 3, n1⟩],
          dedups := st.dedups ++ [⟨s, 3, dedup_key_type3 tf td te, n1⟩] }
        n2 s 3 (some (dedup_key_type3 tf td te)) = false := by
      simp [reminder_suppressed, h31, h33, hcheck2, check_dedup_time_based]
    refine ⟨hr1, ?_, ?_⟩
    · intro hcontra
      exact absurd hcontra henab
    · rw [hr1]
      have hupd2 : update_dedup_record
          { alerts := (st.alerts ++ [⟨s, 3, n1⟩]) ++ [⟨s, 3, n2⟩],
            dedups := st.dedups ++ [⟨s, 3, dedup_key_type3 tf td te, n1⟩] }
          n2 s 3 (some (dedup_key_type3 tf td te)) =
          { alerts := (st.alerts ++ [⟨s, 3, n1⟩]) ++ [⟨s, 3, n2⟩],
            dedups := (st.dedups ++ [⟨s, 3, dedup_key_type3 tf td te, n1⟩]) ++
              [⟨s, 3, dedup_key_type3 tf td te, n2⟩] } := by
        simp [update_dedup_record]
      cases sw with
      | false =>
        simp only [reminder, hsup2, Bool.false_eq_true, if_false, hupd2, henab']
        simp
      | true =>
        have hfmt : format_wechat_message s 3 = Except.error nameErrorMessage := rfl
        simp only [reminder, hsup2, Bool.false_eq_true, if_false, if_true, hfmt, hupd2, henab']
        simp

/-- C7 witness: the theorem applied to a fresh database with type-3 dedup
enabled. -/
theorem type3_dedup_key_once_witness :
    emptyDB.dedups.any (fun d =>
        d.symbol = "BTCUSDT" && d.alert_type = 3 &&
        d.dedup_key = dedup_key_type3 "15m" 60 0) = false ∧
      ((reminder cfgNoTimeDedup emptyDB 1 "BTCUSDT" 3 true
            (some (dedup_key_type3 "15m" 60 0))).1 =
          { alerts := emptyDB.alerts ++ [⟨"BTCUSDT", 3, 1⟩],
            dedups := emptyDB.dedups ++ [⟨"BTCUSDT", 3, dedup_key_type3 "15m" 60 0, 1⟩] } ∧
        (cfgNoTimeDedup.dedup3_enabled = true →
          reminder cfgNoTimeDedup
              (reminder cfgNoTimeDedup emptyDB 1 "BTCUSDT" 3 true
                  (some (dedup_key_type3 "15m" 60 0))).1
              2 "BTCUSDT" 3 true (some (dedup_key_type3 "15m" 60 0)) =
            ((reminder cfgNoTimeDedup emptyDB 1 "BTCUSDT" 3 true
                (some (dedup_key_type3 "15m" 60 0))).1,
             Except.ok none)) ∧
        (reminder cfgNoTimeDedup
            (reminder cfgNoTimeDedup emptyDB 1 "BTCUSDT" 3 true
                (some (dedup_key_type3 "15m" 60 0))).1
            2 "BTCUSDT" 3 true (some (dedup_key_type3 "15m" 60 0))).1.alerts.length =
          emptyDB.alerts.length + (if cfgNoTimeDedup.dedup3_enabled then 1 else 2)) :=
  ⟨by decide,
   type3_dedup_key_once cfgNoTimeDedup emptyDB "BTCUSDT" "15m" 60 0 1 2 true (by decide)⟩

/-- Updating the first matching dedup row of a list whose prefix has no
match rewrites exactly the appended matching row. -/
theorem updateFirstDedup_append (s : String) (ty now : ℤ)
    (l : List AlertDedup) (x : AlertDedup)
    (hl : ∀ d ∈ l, (d.symbol = s && d.alert_type = ty) = false)
    (hx : (x.symbol = s && x.alert_type = ty) = true) :
    updateFirstDedup s ty now (l ++ [x]) = l ++ [{ x with last_alert_time := now }] := by
  induction l with
  | nil => simp [updateFirstDedup, hx]
  | cons d ds ih =>
    have hd := hl d (List.mem_cons_self d ds)
    simp only [List.cons_append, updateFirstDedup, hd, Bool.false_eq_true, if_false,
      List.append_eq]
    rw [ih (fun d' hd' => hl d' (List.mem_cons_of_mem d hd'))]

/-- `check_dedup_time_based` specialized to alert type 1. -/
theorem check_dedup_time_based_type1 (cfg : AlertConfig) (st : DBState) (now : ℤ)
    (s : String) :
    check_dedup_time_based cfg st now s 1 =
      (if cfg.reminder_interval_1 ≤ 0 then false
       else match lastFired? st.dedups s 1 with
            | none => false
            | some t => decide (now - cfg.reminder_interval_1 ≤ t)) := by
  unfold check_dedup_time_based
  norm_num

/-- Config with type-3 dedup enabled and both reminder intervals at 5
minutes. -/
def cfgTimeDedup5 : AlertConfig := ⟨true, 5, 5⟩

/-- A database holding one type-1 dedup row for BTCUSDT last fired at
minute 0. -/
def dbOneType1 : DBState := ⟨[], [⟨"BTCUSDT", 1, "type1_interval", 0⟩]⟩

/-- C8 counterexample: with reminder interval 5 and last-fired time 0, a
detection at `now = 5` sits exactly on the boundary: the claim's strict
rule `now - lastFired < interval` says it must pass, but the code compares
`lastFired ≥ now - interval` and suppresses it. -/
theorem time_dedup_boundary_not_strict :
    ¬ ((check_dedup_time_based cfgTimeDedup5 dbOneType1 5 "BTCUSDT" 1 = true) ↔
        ((5 : ℤ) - 0 < cfgTimeDedup5.reminder_interval_1)) := by
  decide

/-- C8 (amended): for volume (type 1) and rise (type 2) alerts a new
detection is suppressed exactly when a last-fired record exists and
`now - lastFired ≤ reminderIntervalMinutes` (non-strict: at exactly the
interval boundary the detection is still suppressed), with a non-positive
configured interval disabling dedup entirely; on acceptance the last-fired
timestamp is updated to now, so two triggers within the interval persist
exactly one alert and a third trigger strictly after the interval elapses
persists a second one. -/
theorem time_dedup_characterization :
    (∀ (cfg : AlertConfig) (st : DBState) (now : ℤ) (s : String) (ty : ℤ),
        ty = 1 ∨ ty = 2 →
        (check_dedup_time_based cfg st now s ty = true ↔
          (0 < (if ty = 1 then cfg.reminder_interval_1 else cfg.reminder_interval_2) ∧
           ∃ t, lastFired? st.dedups s ty = some t ∧
             now - t ≤ (if ty = 1 then cfg.reminder_interval_1 else cfg.reminder_interval_2)))) ∧
    (∀ (cfg : AlertConfig) (st : DBState) (s : String) (t0 t1 t2 : ℤ) (sw : Bool),
        st.dedups.filter (fun d => d.symbol = s && d.alert_type = 1) = [] →
        0 < cfg.reminder_interval_1 →
        t0 ≤ t1 →
        t1 - t0 ≤ cfg.reminder_interval_1 →
        cfg.reminder_interval_1 < t2 - t1 →
        (reminder cfg (reminder cfg st t0 s 1 sw none).1 t1 s 1 sw none =
            ((reminder cfg st t0 s 1 sw none).1, Except.ok none)) ∧
          lastFired? (reminder cfg st t0 s 1 sw none).1.dedups s 1 = some t0 ∧
          (reminder cfg
              (reminder cfg (reminder cfg st t0 s 1 sw none).1 t1 s 1 sw none).1
              t2 s 1 sw none).1.alerts.length = st.alerts.length + 2 ∧
          lastFired? (reminder cfg
              (reminder cfg (reminder cfg st t0 s 1 sw none).1 t1 s 1 sw none).1
              t2 s 1 sw none).1.dedups s 1 = some t2) := by
  constructor
  · intro cfg st now s ty hty
    simp only [check_dedup_time_based, if_pos hty]
    by_cases hI : (if ty = 1 then cfg.reminder_interval_1 else cfg.reminder_interval_2) ≤ 0
    · rw [if_pos hI]
      simp only [Bool.false_eq_true, false_iff, not_and]
      intro hpos
      omega
    · rw [if_neg hI]
      cases hlf : lastFired? st.dedups s ty with
      | none =>
        simp [hlf]
      | some t =>
        simp only [hlf, decide_eq_true_eq, Option.some.injEq]
        constructor
        · intro hle
          exact ⟨by omega, t, rfl, by omega⟩
        · rintro ⟨-, u, hu, hle⟩
          omega
  · intro cfg st s t0 t1 t2 sw h0 hpos h01 hwin hgap
    have h13 : (decide ((1 : ℤ) = 3)) = false := by decide
    have hIne : ¬ cfg.reminder_interval_1 ≤ 0 := by omega
    have hmem0 : ∀ d ∈ st.dedups, (d.symbol = s && d.alert_type = 1) = false := by
      intro d hd
      have := List.filter_eq_nil_iff.mp h0 d hd
      cases hb : (d.symbol = s && d.alert_type = (1 : ℤ))
      · rfl
      · exact absurd hb this
    have hlf0 : lastFired? st.dedups s 1 = none := by
      simp [lastFired?, h0, maxTime?]
    have hchk0 : check_dedup_time_based cfg st t0 s 1 = false := by
      rw [check_dedup_time_based_type1, if_neg hIne, hlf0]
    have hsup0 : reminder_suppressed cfg st t0 s 1 none = false := by
      simp [reminder_suppressed, hchk0, h13]
    have hany0 : st.dedups.any (fun d => d.symbol = s && d.alert_type = 1) = false := by
      cases hb : st.dedups.any (fun d => d.symbol = s && d.alert_type = (1 : ℤ))
      · rfl
      · exfalso
        obtain ⟨d, hd, hpd⟩ := List.any_eq_true.mp hb
        rw [hmem0 d hd] at hpd
        exact Bool.false_ne_true hpd
    have hupd0 : update_dedup_record { st with alerts := st.alerts ++ [⟨s, 1, t0⟩] }
        t0 s 1 none =
        { alerts := st.alerts ++ [⟨s, 1, t0⟩],
          dedups := st.dedups ++ [⟨s, 1, "type" ++ toString (1 : ℤ) ++ "_interval", t0⟩] } := by
      simp [update_dedup_record, hany0]
    have hr1 : (reminder cfg st t0 s 1 sw none).1 =
        { alerts := st.alerts ++ [⟨s, 1, t0⟩],
          dedups := st.dedups ++ [⟨s, 1, "type" ++ toString (1 : ℤ) ++ "_interval", t0⟩] } := by
      cases sw with
      | false => simp only [reminder, hsup0, Bool.false_eq_true, if_false, hupd0]
      | true =>
        have hfmt : format_wechat_message s 1 = Except.error nameErrorMessage := rfl
        simp only [reminder, hsup0, Bool.false_eq_true, if_false, if_true, hfmt, hupd0]
    have hfilter1 : (st.dedups ++
          [(⟨s, 1, "type" ++ toString (1 : ℤ) ++ "_interval", t0⟩ : AlertDedup)]).filter
        (fun d => d.symbol = s && d.alert_type = 1) =
        [⟨s, 1, "type" ++ toString (1 : ℤ) ++ "_interval", t0⟩] := by
      simp [List.filter_append, h0]
    have hlf1 : lastFired? (st.dedups ++
          [(⟨s, 1, "type" ++ toString (1 : ℤ) ++ "_interval", t0⟩ : AlertDedup)]) s 1 =
        some t0 := by
      simp [lastFired?, hfilter1, maxTime?]
    have hchk1 : check_dedup_time_based cfg
        { alerts := st.alerts ++ [⟨s, 1, t0⟩],
          dedups := st.dedups ++ [⟨s, 1, "type" ++ toString (1 : ℤ) ++ "_interval", t0⟩] }
        t1 s 1 = true := by
      rw [check_dedup_time_based_type1, if_neg hIne]
      simp only [hlf1, decide_eq_true_eq]
      omega
    have hsup1 : reminder_suppressed cfg
        { alerts := st.alerts ++ [⟨s, 1, t0⟩],
          dedups := st.dedups ++ [⟨s, 1, "type" ++ toString (1 : ℤ) ++ "_interval", t0⟩] }
        t1 s 1 none = true := by
      simp [reminder_suppressed, hchk1]
    have hr2 : reminder cfg (reminder cfg st t0 s 1 sw none).1 t1 s 1 sw none =
        ((reminder cfg st t0 s 1 sw none).1, Except.ok none) := by
      rw [hr1]
      simp only [reminder, hsup1, if_true]
    have hchk2 : check_dedup_time_based cfg
        { alerts := st.alerts ++ [⟨s, 1, t0⟩],
          dedups := st.dedups ++ [⟨s, 1, "type" ++ toString (1 : ℤ) ++ "_interval", t0⟩] }
        t2 s 1 = false := by
      rw [check_dedup_time_based_type1, if_neg hIne]
      simp only [hlf1, decide_eq_false_iff_not]
      omega
    have hsup2 : reminder_suppressed cfg
        { alerts := st.alerts ++ [⟨s, 1, t0⟩],
          dedups := st.dedups ++ [⟨s, 1, "type" ++ toString (1 : ℤ) ++ "_interval", t0⟩] }
        t2 s 1 none = false := by
      simp [reminder_suppressed, hchk2, h13]
    have hany2 : (st.dedups ++
          [(⟨s, 1, "type" ++ toString (1 : ℤ) ++ "_interval", t0⟩ : AlertDedup)]).any
        (fun d => d.symbol = s && d.alert_type = 1) = true := by
      simp [List.any_append]
    have hupd2 : update_dedup_record
        { alerts := (st.alerts ++ [⟨s, 1, t0⟩]) ++ [⟨s, 1, t2⟩],
          dedups := st.dedups ++ [⟨s, 1, "type" ++ toString (1 : ℤ) ++ "_interval", t0⟩] }
        t2 s 1 none =
        { alerts := (st.alerts ++ [⟨s, 1, t0⟩]) ++ [⟨s, 1, t2⟩],
          dedups := st.dedups ++
            [⟨s, 1, "type" ++ toString (1 : ℤ) ++ "_interval", t2⟩] } := by
      simp only [update_dedup_record, Option.isSome_none]
      norm_num
      rw [updateFirstDedup_append s 1 t2 st.dedups _ hmem0 (by simp)]
    have hr3 : (reminder cfg
        { alerts := st.alerts ++ [⟨s, 1, t0⟩],
          dedups := st.dedups ++ [⟨s, 1, "type" ++ toString (1 : ℤ) ++ "_interval", t0⟩] }
        t2 s 1 sw none).1 =
        { alerts := (st.alerts ++ [⟨s, 1, t0⟩]) ++ [⟨s, 1, t2⟩],
          dedups := st.dedups ++
            [⟨s, 1, "type" ++ toString (1 : ℤ) ++ "_interval", t2⟩] } := by
      cases sw with
      | false => simp only [reminder, hsup2, Bool.false_eq_true, if_false, hupd2]
      | true =>
        have hfmt : format_wechat_message s 1 = Except.error nameErrorMessage := rfl
        simp only [reminder, hsup2, Bool.false_eq_true, if_false, if_true, hfmt, hupd2]
    have hfilter3 : (st.dedups ++
          [(⟨s, 1, "type" ++ toString (1 : ℤ) ++ "_interval", t2⟩ : AlertDedup)]).filter
        (fun d => d.symbol = s && d.alert_type = 1) =
        [⟨s, 1, "type" ++ toString (1 : ℤ) ++ "_interval", t2⟩] := by
      simp [List.filter_append, h0]
    refine ⟨hr2, ?_, ?_, ?_⟩
    · rw [hr1]
      exact hlf1
    · rw [hr2, hr1, hr3]
      simp
    · rw [hr2, hr1, hr3]
      simp [lastFired?, hfilter3, maxTime?]

/-- C8 witness: the characterization applied to the boundary database and
the three-trigger scenario applied to a fresh database with interval 5 and
trigger times 0, 3, 20. -/
theorem time_dedup_characterization_witness :
    (((1 : ℤ) = 1 ∨ (1 : ℤ) = 2) ∧
      (check_dedup_time_based cfgTimeDedup5 dbOneType1 5 "BTCUSDT" 1 = true ↔
        (0 < (if (1 : ℤ) = 1 then cfgTimeDedup5.reminder_interval_1
              else cfgTimeDedup5.reminder_interval_2) ∧
         ∃ t, lastFired? dbOneType1.dedups "BTCUSDT" 1 = some t ∧
           (5 : ℤ) - t ≤ (if (1 : ℤ) = 1 then cfgTimeDedup5.reminder_interval_1
              else cfgTimeDedup5.reminder_interval_2)))) ∧
    ((reminder cfgTimeDedup5 (reminder cfgTimeDedup5 emptyDB 0 "BTCUSDT" 1 true none).1
          3 "BTCUSDT" 1 true none =
        ((reminder cfgTimeDedup5 emptyDB 0 "BTCUSDT" 1 true none).1, Except.ok none)) ∧
      lastFired? (reminder cfgTimeDedup5 emptyDB 0 "BTCUSDT" 1 true none).1.dedups
        "BTCUSDT" 1 = some 0 ∧
      (reminder cfgTimeDedup5
          (reminder cfgTimeDedup5 (reminder cfgTimeDedup5 emptyDB 0 "BTCUSDT" 1 true none).1
            3 "BTCUSDT" 1 true none).1
          20 "BTCUSDT" 1 true none).1.alerts.length = emptyDB.alerts.length + 2 ∧
      lastFired? (reminder cfgTimeDedup5
          (reminder cfgTimeDedup5 (reminder cfgTimeDedup5 emptyDB 0 "BTCUSDT" 1 true none).1
            3 "BTCUSDT" 1 true none).1
          20 "BTCUSDT" 1 true none).1.dedups "BTCUSDT" 1 = some 20) :=
  ⟨⟨Or.inl rfl,
    time_dedup_characterization.1 cfgTimeDedup5 dbOneType1 5 "BTCUSDT" 1 (Or.inl rfl)⟩,
   time_dedup_characterization.2 cfgTimeDedup5 emptyDB "BTCUSDT" 0 3 20 true
     (by decide) (by decide) (by decide) (by decide) (by decide)⟩

/-- Folding `mark_symbol_synced` over a list of symbol names sets the flag
of exactly the rows whose symbol occurs in the list. -/
theorem foldl_mark_symbol_synced (L : List String) (table : List SymbolRow) :
    L.foldl mark_symbol_synced table =
      table.map (fun r =>
        if r.symbol ∈ L then { r with initial_synced := true } else r) := by
  induction L generalizing table with
  | nil => simp
  | cons a L ih =>
    simp only [List.foldl_cons]
    rw [ih]
    unfold mark_symbol_synced
    rw [List.map_map]
    apply List.map_congr_left
    intro r _
    by_cases hra : r.symbol = a
    · simp only [Function.comp, hra, if_pos rfl, List.mem_cons, true_or, if_true]
      split
      · rfl
      · rfl
    · simp only [Function.comp, hra, if_false, List.mem_cons, false_or, if_neg hra]

/-- The twelve active, not-yet-initialized symbols of the spec scenario. -/
def demoTable : List SymbolRow :=
  [⟨"S01", true, false⟩, ⟨"S02", true, false⟩, ⟨"S03", true, false⟩,
   ⟨"S04", true, false⟩, ⟨"S05", true, false⟩, ⟨"S06", true, false⟩,
   ⟨"S07", true, false⟩, ⟨"S08", true, false⟩, ⟨"S09", true, false⟩,
   ⟨"S10", true, false⟩, ⟨"S11", true, false⟩, ⟨"S12", true, false⟩]

/-- A sync oracle on which every (symbol, interval) backfill succeeds. -/
def okAll : String → String → Bool := fun _ _ => true

/-- C10: each tick takes at most `INITIAL_SYNC_BATCH_SIZE = 5` unsynced
active symbols — the prefix of the unsynced list — backfills each across
all supported intervals, and sets `initial_synced` exactly for the rows
whose symbol is in that batch and whose full-interval backfill succeeded;
consequently, with 12 unsynced active symbols and fully successful syncs,
three consecutive ticks initialize 5, then 5, then 2 symbols, after which
every symbol is marked. -/
theorem sync_klines_task_progressive_init :
    (∀ (ok : String → String → Bool) (table : List SymbolRow),
        sync_klines_task ok table =
          table.map (fun r =>
            if r.symbol ∈ ((unsyncedActive table).take INITIAL_SYNC_BATCH_SIZE).filter
                (fun s => sync_initial_symbol ok s ALL_INTERVALS) then
              { r with initial_synced := true }
            else r)) ∧
    (∀ (table : List SymbolRow),
        ((unsyncedActive table).take INITIAL_SYNC_BATCH_SIZE).length ≤
          INITIAL_SYNC_BATCH_SIZE) ∧
    syncedCount demoTable = 0 ∧
    syncedCount (sync_klines_task okAll demoTable) = 5 ∧
    syncedCount (sync_klines_task okAll (sync_klines_task okAll demoTable)) = 10 ∧
    syncedCount (sync_klines_task okAll
      (sync_klines_task okAll (sync_klines_task okAll demoTable))) = 12 ∧
    (∀ r ∈ sync_klines_task okAll
        (sync_klines_task okAll (sync_klines_task okAll demoTable)),
      r.initial_synced = true) := by
  refine ⟨?_, ?_, by decide, by decide, by decide, by decide, by decide⟩
  · intro ok table
    unfold sync_klines_task
    exact foldl_mark_symbol_synced _ table
  · intro table
    exact List.length_take_le _ _

/-- A request arriving into a fresh minute resets the window and grants
immediately with the counter at 1. -/
theorem check_rate_limit_step_newWindow (s : RLState) (r : ℕ)
    (h : ¬ minuteKey (max r s.lastTime) = s.curMinute) :
    check_rate_limit_step s r =
      (⟨minuteKey (max r s.lastTime), 1, max r s.lastTime⟩, max r s.lastTime) := by
  simp [check_rate_limit_step, h, RATE_SOFT_LIMIT]

/-- A request in the current minute with the counter below the soft
threshold grants immediately and increments the counter. -/
theorem check_rate_limit_step_sameLow (s : RLState) (r : ℕ)
    (h : minuteKey (max r s.lastTime) = s.curMinute)
    (hc : s.count < RATE_SOFT_LIMIT) :
    check_rate_limit_step s r =
      (⟨s.curMinute, s.count + 1, max r s.lastTime⟩, max r s.lastTime) := by
  unfold check_rate_limit_step
  simp only [h, eq_self_iff_true, if_true]
  rw [if_neg (Nat.not_le.mpr hc)]

/-- A request in the current minute with the counter at the soft threshold
sleeps to the next minute boundary, resets the window, and grants there. -/
theorem check_rate_limit_step_sameHigh (s : RLState) (r : ℕ)
    (h : minuteKey (max r s.lastTime) = s.curMinute)
    (hc : RATE_SOFT_LIMIT ≤ s.count) :
    check_rate_limit_step s r =
      (⟨minuteKey (60 * (max r s.lastTime / 60 + 1)), 1,
        60 * (max r s.lastTime / 60 + 1)⟩,
       60 * (max r s.lastTime / 60 + 1)) := by
  unfold check_rate_limit_step
  simp only [h, eq_self_iff_true, if_true]
  rw [if_pos hc]

/-- Counting grants in a window, cons case. -/
theorem grantsInWindow_cons (g : ℕ) (gs : List ℕ) (m : ℕ) :
    grantsInWindow m (g :: gs) =
      (if g / 60 = m then 1 else 0) + grantsInWindow m gs := by
  simp only [grantsInWindow, List.filter_cons]
  split
  · next hg =>
    rw [if_pos (by simpa using hg)]
    simp [Nat.add_comm]
  · next hg =>
    rw [if_neg (by simpa using hg)]
    simp

/-- No grant at or after time `a` can land in a window before `a`'s. -/
theorem grantsInWindow_zero_of_lt (l : List ℕ) (a m : ℕ)
    (h : ∀ g ∈ l, a ≤ g) (hm : m < a / 60) : grantsInWindow m l = 0 := by
  unfold grantsInWindow
  have hnil : l.filter (fun g => g / 60 = m) = [] := by
    rw [List.filter_eq_nil_iff]
    intro g hg
    have hag := h g hg
    simp only [decide_eq_true_eq]
    omega
  rw [hnil]
  rfl

/-- Invariant of the rate limiter trace: all grants happen at or after the
previous completion time, and every one-minute window receives at most
`RATE_SOFT_LIMIT` grants — with the current window already charged for the
counter value. -/
theorem rate_limiter_run_bound :
    ∀ (rs : List ℕ) (s : RLState) (m : ℕ),
      s.count ≤ RATE_SOFT_LIMIT →
      (∀ g ∈ rate_limiter_run s rs, s.lastTime ≤ g) ∧
      grantsInWindow m (rate_limiter_run s rs) ≤
        (if s.lastTime / 60 = m ∧ s.curMinute = minuteKey s.lastTime
         then RATE_SOFT_LIMIT - s.count else RATE_SOFT_LIMIT) := by
  intro rs
  induction rs with
  | nil =>
    intro s m hc
    refine ⟨by simp [rate_limiter_run], ?_⟩
    simp only [rate_limiter_run, grantsInWindow, List.filter_nil, List.length_nil]
    split
    · exact Nat.zero_le _
    · exact Nat.zero_le _
  | cons r rs ih =>
    intro s m hc
    have hL : RATE_SOFT_LIMIT = 1150 := rfl
    have hlastle : s.lastTime ≤ max r s.lastTime := le_max_right r s.lastTime
    by_cases hk : minuteKey (max r s.lastTime) = s.curMinute
    · by_cases hcnt : s.count < RATE_SOFT_LIMIT
      · -- same window, counter below threshold: grant now
        have hstep := check_rate_limit_step_sameLow s r hk hcnt
        have hrun : rate_limiter_run s (r :: rs) =
            max r s.lastTime ::
              rate_limiter_run ⟨s.curMinute, s.count + 1, max r s.lastTime⟩ rs := by
          simp only [rate_limiter_run, hstep]
        obtain ⟨mono', bnd'⟩ :=
          ih ⟨s.curMinute, s.count + 1, max r s.lastTime⟩ m
            (show s.count + 1 ≤ RATE_SOFT_LIMIT by omega)
        have monoT : ∀ g ∈ rate_limiter_run
            ⟨s.curMinute, s.count + 1, max r s.lastTime⟩ rs,
            max r s.lastTime ≤ g := fun g hg => mono' g hg
        have bndL : grantsInWindow m
            (rate_limiter_run ⟨s.curMinute, s.count + 1, max r s.lastTime⟩ rs) ≤
            RATE_SOFT_LIMIT := by
          refine le_trans bnd' ?_
          split
          · exact Nat.sub_le _ _
          · exact le_rfl
        rw [hrun]
        constructor
        · intro g hg
          rcases List.mem_cons.mp hg with hg | hg
          · rw [hg]
            exact hlastle
          · exact le_trans hlastle (monoT g hg)
        · rw [grantsInWindow_cons]
          by_cases hm : max r s.lastTime / 60 = m
          · rw [if_pos hm]
            have bndT : grantsInWindow m
                (rate_limiter_run ⟨s.curMinute, s.count + 1, max r s.lastTime⟩ rs) ≤
                RATE_SOFT_LIMIT - (s.count + 1) := by
              have h := bnd'
              rw [if_pos (show
                  (⟨s.curMinute, s.count + 1, max r s.lastTime⟩ : RLState).lastTime / 60 = m ∧
                  (⟨s.curMinute, s.count + 1, max r s.lastTime⟩ : RLState).curMinute =
                    minuteKey (⟨s.curMinute, s.count + 1, max r s.lastTime⟩ : RLState).lastTime
                  from ⟨hm, hk.symm⟩)] at h
              exact h
            split
            · omega
            · omega
          · rw [if_neg hm]
            by_cases hlast : s.lastTime / 60 = m ∧ s.curMinute = minuteKey s.lastTime
            · rw [if_pos hlast]
              have hzero : grantsInWindow m
                  (rate_limiter_run ⟨s.curMinute, s.count + 1, max r s.lastTime⟩ rs) = 0 := by
                refine grantsInWindow_zero_of_lt _ (max r s.lastTime) m monoT ?_
                have h1 := hlast.1
                omega
              omega
            · rw [if_neg hlast]
              omega
      · -- same window, counter at threshold: sleep to next minute boundary
        have hstep := check_rate_limit_step_sameHigh s r hk (by omega)
        have hrun : rate_limiter_run s (r :: rs) =
            60 * (max r s.lastTime / 60 + 1) ::
              rate_limiter_run
                ⟨minuteKey (60 * (max r s.lastTime / 60 + 1)), 1,
                 60 * (max r s.lastTime / 60 + 1)⟩ rs := by
          simp only [rate_limiter_run, hstep]
        obtain ⟨mono', bnd'⟩ :=
          ih ⟨minuteKey (60 * (max r s.lastTime / 60 + 1)), 1,
              60 * (max r s.lastTime / 60 + 1)⟩ m
            (show 1 ≤ RATE_SOFT_LIMIT by omega)
        have monoT : ∀ g ∈ rate_limiter_run
            ⟨minuteKey (60 * (max r s.lastTime / 60 + 1)), 1,
             60 * (max r s.lastTime / 60 + 1)⟩ rs,
            60 * (max r s.lastTime / 60 + 1) ≤ g := fun g hg => mono' g hg
        have bndL : grantsInWindow m
            (rate_limiter_run
              ⟨minuteKey (60 * (max r s.lastTime / 60 + 1)), 1,
               60 * (max r s.lastTime / 60 + 1)⟩ rs) ≤ RATE_SOFT_LIMIT := by
          refine le_trans bnd' ?_
          split
          · exact Nat.sub_le _ _
          · exact le_rfl
        rw [hrun]
        constructor
        · intro g hg
          rcases List.mem_cons.mp hg with hg | hg
          · rw [hg]
            omega
          · have h3 := monoT g hg
            omega
        · rw [grantsInWindow_cons]
          by_cases hm2 : 60 * (max r s.lastTime / 60 + 1) / 60 = m
          · rw [if_pos hm2]
            have bndT : grantsInWindow m
                (rate_limiter_run
                  ⟨minuteKey (60 * (max r s.lastTime / 60 + 1)), 1,
                   60 * (max r s.lastTime / 60 + 1)⟩ rs) ≤ RATE_SOFT_LIMIT - 1 := by
              have h := bnd'
              rw [if_pos (show
                  (⟨minuteKey (60 * (max r s.lastTime / 60 + 1)), 1,
                    60 * (max r s.lastTime / 60 + 1)⟩ : RLState).lastTime / 60 = m ∧
                  (⟨minuteKey (60 * (max r s.lastTime / 60 + 1)), 1,
                    60 * (max r s.lastTime / 60 + 1)⟩ : RLState).curMinute =
                    minuteKey (⟨minuteKey (60 * (max r s.lastTime / 60 + 1)), 1,
                      60 * (max r s.lastTime / 60 + 1)⟩ : RLState).lastTime
                  from ⟨hm2, rfl⟩)] at h
              exact h
            have hnot : ¬ (s.lastTime / 60 = m ∧ s.curMinute = minuteKey s.lastTime) := by
              rintro ⟨h1, -⟩
              omega
            rw [if_neg hnot]
            omega
          · rw [if_neg hm2]
            by_cases hlast : s.lastTime / 60 = m ∧ s.curMinute = minuteKey s.lastTime
            · rw [if_pos hlast]
              have hzero : grantsInWindow m
                  (rate_limiter_run
                    ⟨minuteKey (60 * (max r s.lastTime / 60 + 1)), 1,
                     60 * (max r s.lastTime / 60 + 1)⟩ rs) = 0 := by
                refine grantsInWindow_zero_of_lt _
                  (60 * (max r s.lastTime / 60 + 1)) m monoT ?_
                have h1 := hlast.1
                omega
              omega
            · rw [if_neg hlast]
              omega
    · -- fresh minute: window resets, grant now with the counter at 1
      have hstep := check_rate_limit_step_newWindow s r hk
      have hrun : rate_limiter_run s (r :: rs) =
          max r s.lastTime ::
            rate_limiter_run
              ⟨minuteKey (max r s.lastTime), 1, max r s.lastTime⟩ rs := by
        simp only [rate_limiter_run, hstep]
      obtain ⟨mono', bnd'⟩ :=
        ih ⟨minuteKey (max r s.lastTime), 1, max r s.lastTime⟩ m
          (show 1 ≤ RATE_SOFT_LIMIT by omega)
      have monoT : ∀ g ∈ rate_limiter_run
          ⟨minuteKey (max r s.lastTime), 1, max r s.lastTime⟩ rs,
          max r s.lastTime ≤ g := fun g hg => mono' g hg
      have bndL : grantsInWindow m
          (rate_limiter_run
            ⟨minuteKey (max r s.lastTime), 1, max r s.lastTime⟩ rs) ≤
          RATE_SOFT_LIMIT := by
        refine le_trans bnd' ?_
        split
        · exact Nat.sub_le _ _
        · exact le_rfl
      rw [hrun]
      constructor
      · intro g hg
        rcases List.mem_cons.mp hg with hg | hg
        · rw [hg]
          exact hlastle
        · exact le_trans hlastle (monoT g hg)
      · rw [grantsInWindow_cons]
        by_cases hm : max r s.lastTime / 60 = m
        · rw [if_pos hm]
          have bndT : grantsInWindow m
              (rate_limiter_run
                ⟨minuteKey (max r s.lastTime), 1, max r s.lastTime⟩ rs) ≤
              RATE_SOFT_LIMIT - 1 := by
            have h := bnd'
            rw [if_pos (show
                (⟨minuteKey (max r s.lastTime), 1, max r s.lastTime⟩ : RLState).lastTime / 60 = m ∧
                (⟨minuteKey (max r s.lastTime), 1, max r s.lastTime⟩ : RLState).curMinute =
                  minuteKey (⟨minuteKey (max r s.lastTime), 1,
                    max r s.lastTime⟩ : RLState).lastTime
                from ⟨hm, rfl⟩)] at h
            exact h
          have hnot : ¬ (s.lastTime / 60 = m ∧ s.curMinute = minuteKey s.lastTime) := by
            rintro ⟨h1, h2⟩
            apply hk
            have hkey : minuteKey (max r s.lastTime) = minuteKey s.lastTime := by
              unfold minuteKey
              have hdiv : max r s.lastTime / 60 = s.lastTime / 60 := by omega
              rw [hdiv]
            rw [hkey, ← h2]
          rw [if_neg hnot]
          omega
        · rw [if_neg hm]
          by_cases hlast : s.lastTime / 60 = m ∧ s.curMinute = minuteKey s.lastTime
          · rw [if_pos hlast]
            have hzero : grantsInWindow m
                (rate_limiter_run
                  ⟨minuteKey (max r s.lastTime), 1, max r s.lastTime⟩ rs) = 0 := by
              refine grantsInWindow_zero_of_lt _ (max r s.lastTime) m monoT ?_
              have h1 := hlast.1
              omega
            omega
          · rw [if_neg hlast]
            omega

/-- C9: the rate limiter's soft threshold is 1150, below the 1200 hard API
cap, and over every request trace at most `RATE_SOFT_LIMIT` acquisitions
are granted inside any single one-minute wall-clock window: the shared
counter increments on each grant, and a grant attempt that finds the
counter at the threshold sleeps to the next minute boundary, where window
and counter reset. -/
theorem rate_limiter_window_bound :
    RATE_SOFT_LIMIT = 1150 ∧ RATE_SOFT_LIMIT < 1200 ∧
    ∀ (rs : List ℕ) (m : ℕ),
      grantsInWindow m (rate_limiter_grants rs) ≤ RATE_SOFT_LIMIT := by
  refine ⟨rfl, by norm_num [RATE_SOFT_LIMIT], ?_⟩
  intro rs m
  have h := rate_limiter_run_bound rs rlInit m (by norm_num [rlInit, RATE_SOFT_LIMIT])
  have h2 := h.2
  have hcond : ¬ ((rlInit.lastTime / 60 = m) ∧ rlInit.curMinute = minuteKey rlInit.lastTime) := by
    rintro ⟨-, h2'⟩
    norm_num [rlInit, minuteKey] at h2'
  rw [if_neg hcond] at h2
  exact h2

end KlineMonitor
